import Mathlib

/-!
Shallow embedding of the KubeAI-Doctor CLI (src/cli/src/main.rs).

The tool dispatches on a resource-kind string to one of four check
routines (nodes, pods, services, events).  Each routine connects to the
cluster, lists a resource collection (cluster-scoped for nodes,
namespace-scoped-or-all otherwise), prints one line per item and, for
nodes and pods, a healthy/unhealthy summary.  Rust `Option::unwrap` on a
missing status block is modelled as a `panicked` outcome; `?`-propagated
connection/list errors are modelled with `Except`.
-/

namespace KubeDoctor

/-- A node status condition (k8s_openapi NodeCondition): `type_` and `status`. -/
structure NodeCondition where
  type_ : String
  status : String
deriving DecidableEq

/-- Node status block: `conditions` is optional in the API object. -/
structure NodeStatus where
  conditions : Option (List NodeCondition)
deriving DecidableEq

/-- A listed node: `name_any()` and the optional status block. -/
structure Node where
  name : String
  status : Option NodeStatus
deriving DecidableEq

/-- Pod status block: `phase` is optional. -/
structure PodStatus where
  phase : Option String
deriving DecidableEq

/-- A listed pod. -/
structure Pod where
  name : String
  status : Option PodStatus
deriving DecidableEq

/-- A listed service: only the name is read. -/
structure Service where
  name : String
deriving DecidableEq

/-- A listed event: name and optional message. -/
structure Event where
  name : String
  message : Option String
deriving DecidableEq

/-- Health classification of a node or pod. -/
inductive Health where
  | healthy
  | unhealthy
deriving DecidableEq

/-- Listing scope of an `Api` handle: `Api::all` or `Api::namespaced(client, ns)`. -/
inductive Scope where
  | all
  | namespaced (ns : String)
deriving DecidableEq

/-- The `if let Some(ns) = namespace { Api::namespaced(client, ns) } else
{ Api::all(client) }` selection shared by the pod, service and event checks. -/
def scope_of : Option String → Scope
  | some ns => .namespaced ns
  | none => .all

/-- Outcome of one routine: normal return, a propagated error (`?`), or a
Rust panic from `unwrap()` on a `None`. -/
inductive RunStatus where
  | ok
  | err (e : String)
  | panicked
deriving DecidableEq

/-- Outcome of the per-item loop of the node/pod checks: the lines printed,
with healthy/unhealthy counters on normal completion; `panicked` keeps the
lines printed before the aborting item. -/
inductive LoopOut where
  | done (lines : List String) (healthy unhealthy : Nat)
  | panicked (lines : List String)
deriving DecidableEq

/-- The lines printed by a loop, whether or not it panicked. -/
def LoopOut.lines : LoopOut → List String
  | .done ls _ _ => ls
  | .panicked ls => ls

/-- Whether the loop aborted in a panic. -/
def LoopOut.isPanic : LoopOut → Bool
  | .done _ _ _ => false
  | .panicked _ => true

/-- `conditions.iter().any(|c| c.type_ == "Ready" && c.status == "True")`. -/
def node_ready (conditions : List NodeCondition) : Bool :=
  conditions.any (fun c => c.type_ == "Ready" && c.status == "True")

/-- Classification of a node from its (present) status block; an absent
conditions list defaults to the empty list (`unwrap_or_default`). -/
def classify_node (st : NodeStatus) : Health :=
  if node_ready (st.conditions.getD []) then .healthy else .unhealthy

/-- The line printed for a node (colors dropped as cosmetic). -/
def node_line (name : String) : Health → String
  | .healthy => "✅ Node: " ++ name
  | .unhealthy => "❌ Node: " ++ name ++ " (NotReady)"

/-- The `for node in node_list.items` loop of `check_nodes`:
`node.status.unwrap()` panics when the status block is absent. -/
def nodesLoop : List Node → LoopOut
  | [] => .done [] 0 0
  | node :: rest =>
    match node.status with
    | none => .panicked []
    | some st =>
      let line := node_line node.name (classify_node st)
      match nodesLoop rest with
      | .done lines h u =>
        match classify_node st with
        | .healthy => .done (line :: lines) (h + 1) u
        | .unhealthy => .done (line :: lines) h (u + 1)
      | .panicked lines => .panicked (line :: lines)

/-- The defaulted pod phase: `status.phase.unwrap_or_else(|| "Unknown")`. -/
def pod_phase (st : PodStatus) : String :=
  st.phase.getD "Unknown"

/-- Classification of a pod from its (present) status block. -/
def classify_pod (st : PodStatus) : Health :=
  if pod_phase st == "Running" then .healthy else .unhealthy

/-- The line printed for a pod. -/
def pod_line (name : String) (st : PodStatus) : String :=
  match classify_pod st with
  | .healthy => "✅ Pod: " ++ name
  | .unhealthy => "❌ Pod: " ++ name ++ " (Status: " ++ pod_phase st ++ ")"

/-- The `for pod in pod_list.items` loop of `check_pods`:
`pod.status.unwrap()` panics when the status block is absent. -/
def podsLoop : List Pod → LoopOut
  | [] => .done [] 0 0
  | pod :: rest =>
    match pod.status with
    | none => .panicked []
    | some st =>
      let line := pod_line pod.name st
      match podsLoop rest with
      | .done lines h u =>
        match classify_pod st with
        | .healthy => .done (line :: lines) (h + 1) u
        | .unhealthy => .done (line :: lines) h (u + 1)
      | .panicked lines => .panicked (line :: lines)

/-- The line printed for a service. -/
def service_line (name : String) : String :=
  "🔹 Service: " ++ name

/-- The `for service in service_list.items` loop of `check_services`. -/
def servicesLoop : List Service → List String
  | [] => []
  | s :: rest => service_line s.name :: servicesLoop rest

/-- The line printed for an event: the message defaults to "No message"
(`unwrap_or_else`) exactly when the field is absent. -/
def event_line (e : Event) : String :=
  "📢 Event: " ++ e.name ++ " - " ++ e.message.getD "No message"

/-- The `for event in event_list.items` loop of `check_events`. -/
def eventsLoop : List Event → List String
  | [] => []
  | e :: rest => event_line e :: eventsLoop rest

/-- Info banner printed by `check_nodes` before connecting. -/
def node_info : String := "[INFO] Running health check on Kubernetes nodes..."

/-- Info banner printed by `check_pods` before connecting. -/
def pod_info : String := "[INFO] Running health check on Kubernetes pods..."

/-- Info banner printed by `check_services` before connecting. -/
def service_info : String := "[INFO] Running health check on Kubernetes services..."

/-- Info banner printed by `check_events` before connecting. -/
def event_info : String := "[INFO] Fetching recent Kubernetes events..."

/-- The summary line of the node/pod checks. -/
def summary_line (h u : Nat) : String :=
  "[SUMMARY] " ++ toString h ++ " healthy, " ++ toString u ++ " unhealthy"

/-- `check_nodes`: connect (`Client::try_default`), list all nodes
(`Api::all`), run the loop, print the summary.  `conn` is the connection
attempt, `listFor` the cluster list call at a given scope; both failures
propagate via `?`. -/
def check_nodes (conn : Except String Unit)
    (listFor : Scope → Except String (List Node)) : List String × RunStatus :=
  match conn with
  | .error e => ([node_info], .err e)
  | .ok _ =>
    match listFor Scope.all with
    | .error e => ([node_info], .err e)
    | .ok items =>
      match nodesLoop items with
      | .done lines h u => (node_info :: lines ++ [summary_line h u], .ok)
      | .panicked lines => (node_info :: lines, .panicked)

/-- `check_pods`: connect, list pods at the namespace-derived scope, loop,
summary. -/
def check_pods (ns : Option String) (conn : Except String Unit)
    (listFor : Scope → Except String (List Pod)) : List String × RunStatus :=
  match conn with
  | .error e => ([pod_info], .err e)
  | .ok _ =>
    match listFor (scope_of ns) with
    | .error e => ([pod_info], .err e)
    | .ok items =>
      match podsLoop items with
      | .done lines h u => (pod_info :: lines ++ [summary_line h u], .ok)
      | .panicked lines => (pod_info :: lines, .panicked)

/-- `check_services`: connect, list services at the namespace-derived scope,
print one line per service; no summary. -/
def check_services (ns : Option String) (conn : Except String Unit)
    (listFor : Scope → Except String (List Service)) : List String × RunStatus :=
  match conn with
  | .error e => ([service_info], .err e)
  | .ok _ =>
    match listFor (scope_of ns) with
    | .error e => ([service_info], .err e)
    | .ok items => (service_info :: servicesLoop items, .ok)

/-- `check_events`: connect, list events at the namespace-derived scope,
print one line per event; no classification, no summary. -/
def check_events (ns : Option String) (conn : Except String Unit)
    (listFor : Scope → Except String (List Event)) : List String × RunStatus :=
  match conn with
  | .error e => ([event_info], .err e)
  | .ok _ =>
    match listFor (scope_of ns) with
    | .error e => ([event_info], .err e)
    | .ok items => (event_info :: eventsLoop items, .ok)

/-- Modelled from the spec: the external cluster client (out of scope of
this repository) lists, for a namespaced scope, exactly the items of the
store that live in that namespace, and for the all scope every item.  The
store pairs each item with its namespace. -/
def list_in_scope (store : List (String × α)) : Scope → List α
  | .all => store.map Prod.snd
  | .namespaced ns => (store.filter (fun p => p.1 == ns)).map Prod.snd

/-- The resource kinds of the dispatch. -/
inductive Resource where
  | nodes
  | pods
  | services
  | events
deriving DecidableEq

/-- The `match resource.as_str()` dispatch: a Rust `&str` match is an
equality chain; unknown strings fall to the wildcard arm (`none`). -/
def parse_resource (r : String) : Option Resource :=
  if r = "nodes" then some .nodes
  else if r = "pods" then some .pods
  else if r = "services" then some .services
  else if r = "events" then some .events
  else none

/-- The error line `eprintln!` of the wildcard dispatch arm. -/
def invalid_resource_msg : String :=
  "[ERROR] Invalid resource. Use 'nodes', 'pods', 'services', or 'events'."

/-- The cluster environment a run observes: the connection attempt and the
list call of each resource collection at a given scope. -/
structure Env where
  conn : Except String Unit
  listNodes : Scope → Except String (List Node)
  listPods : Scope → Except String (List Pod)
  listServices : Scope → Except String (List Service)
  listEvents : Scope → Except String (List Event)

/-- Cluster requests a routine issues: the connection attempt, plus the
list call when the connection succeeded. -/
def check_requests : Except String Unit → Nat
  | .error _ => 1
  | .ok _ => 2

/-- Exit status of the process: `Ok(())` exits 0, a propagated `anyhow`
error exits 1, a panic aborts with Rust status 101. -/
def exit_of : RunStatus → Nat
  | .ok => 0
  | .err _ => 1
  | .panicked => 101

/-- Diagnostic-stream output at the process boundary: `anyhow` prints the
propagated error unmodified, a panic prints a panic report. -/
def stderr_of : RunStatus → List String
  | .ok => []
  | .err e => ["Error: " ++ e]
  | .panicked => ["panicked at unwrap on a None value"]

/-- Observable outcome of one invocation of `main`. -/
structure ProcOutcome where
  stdout : List String
  stderr : List String
  status : RunStatus
  exit : Nat
  invoked : Option Resource
  requests : Nat

/-- The info banner of each routine. -/
def info_line : Resource → String
  | .nodes => node_info
  | .pods => pod_info
  | .services => service_info
  | .events => event_info

/-- The four match arms of the dispatch that run a routine. -/
def dispatch_check (res : Resource) (ns : Option String) (env : Env) :
    List String × RunStatus :=
  match res with
  | .nodes => check_nodes env.conn env.listNodes
  | .pods => check_pods ns env.conn env.listPods
  | .services => check_services ns env.conn env.listServices
  | .events => check_events ns env.conn env.listEvents

/-- `main`: dispatch on the resource string; a recognized kind runs its
routine and propagates the result, the wildcard arm prints the error line
to the diagnostic stream and falls through to `Ok(())`. -/
def main_run (r : String) (ns : Option String) (env : Env) : ProcOutcome :=
  match parse_resource r with
  | some res =>
    let out := dispatch_check res ns env
    { stdout := out.1
      stderr := stderr_of out.2
      status := out.2
      exit := exit_of out.2
      invoked := some res
      requests := check_requests env.conn }
  | none =>
    { stdout := []
      stderr := [invalid_resource_msg]
      status := .ok
      exit := 0
      invoked := none
      requests := 0 }

/-- Success or failure of the list call the dispatched routine performs. -/
def listed (env : Env) (ns : Option String) : Resource → Except String Unit
  | .nodes =>
    match env.listNodes Scope.all with
    | .error e => .error e
    | .ok _ => .ok ()
  | .pods =>
    match env.listPods (scope_of ns) with
    | .error e => .error e
    | .ok _ => .ok ()
  | .services =>
    match env.listServices (scope_of ns) with
    | .error e => .error e
    | .ok _ => .ok ()
  | .events =>
    match env.listEvents (scope_of ns) with
    | .error e => .error e
    | .ok _ => .ok ()

/-! Helper lemmas shared by the claim theorems. -/

theorem node_ready_iff (conditions : List NodeCondition) :
    node_ready conditions = true ↔
      ∃ c ∈ conditions, c.type_ = "Ready" ∧ c.status = "True" := by
  simp [node_ready, List.any_eq_true, Bool.and_eq_true, beq_iff_eq]

theorem classify_node_eq_healthy (st : NodeStatus) :
    classify_node st = Health.healthy ↔
      ∃ c ∈ st.conditions.getD [], c.type_ = "Ready" ∧ c.status = "True" := by
  rw [← node_ready_iff, classify_node]
  split <;> simp_all

theorem classify_node_eq_unhealthy (st : NodeStatus) :
    classify_node st = Health.unhealthy ↔
      ¬ ∃ c ∈ st.conditions.getD [], c.type_ = "Ready" ∧ c.status = "True" := by
  rw [← classify_node_eq_healthy]
  cases h : classify_node st <;> simp

theorem nodesLoop_cons_head (node : Node) (st : NodeStatus) (rest : List Node)
    (h : node.status = some st) :
    (nodesLoop (node :: rest)).lines.head? =
      some (node_line node.name (classify_node st)) := by
  simp only [nodesLoop, h]
  cases hr : nodesLoop rest with
  | done lines hh uu =>
    cases hcl : classify_node st <;> simp [LoopOut.lines]
  | panicked lines => simp [LoopOut.lines]

/-- C1: for every listed node whose status block is present, the node check
classifies it healthy exactly when a condition of type "Ready" with value
"True" occurs among its status conditions; every other combination,
including an absent conditions list (defaulted to the empty list), is
classified unhealthy, and the unhealthy line is tagged NotReady. -/
theorem node_classified_healthy_iff (node : Node) (st : NodeStatus)
    (rest : List Node) (h : node.status = some st) :
    (nodesLoop (node :: rest)).lines.head? =
        some (node_line node.name (classify_node st)) ∧
    (classify_node st = Health.healthy ↔
        ∃ c ∈ st.conditions.getD [], c.type_ = "Ready" ∧ c.status = "True") ∧
    (classify_node st = Health.unhealthy ↔
        ¬ ∃ c ∈ st.conditions.getD [], c.type_ = "Ready" ∧ c.status = "True") ∧
    (st.conditions = none → classify_node st = Health.unhealthy) ∧
    node_line node.name Health.unhealthy =
        "❌ Node: " ++ node.name ++ " (NotReady)" := by
  refine ⟨nodesLoop_cons_head node st rest h, classify_node_eq_healthy st,
    classify_node_eq_unhealthy st, ?_, rfl⟩
  intro hc
  rw [classify_node_eq_unhealthy]
  simp [hc]

theorem node_classified_healthy_iff_witness :
    (⟨"n1", some ⟨some [⟨"Ready", "True"⟩]⟩⟩ : Node).status =
        some ⟨some [⟨"Ready", "True"⟩]⟩ ∧
    classify_node ⟨some [⟨"Ready", "True"⟩]⟩ = Health.healthy :=
  ⟨rfl,
    (node_classified_healthy_iff ⟨"n1", some ⟨some [⟨"Ready", "True"⟩]⟩⟩
        ⟨some [⟨"Ready", "True"⟩]⟩ [] rfl).2.1.mpr
      ⟨⟨"Ready", "True"⟩, by simp, rfl, rfl⟩⟩

theorem classify_pod_eq_healthy (st : PodStatus) :
    classify_pod st = Health.healthy ↔ st.phase = some "Running" := by
  cases hp : st.phase with
  | none => simp [classify_pod, pod_phase, hp]
  | some s =>
    simp only [classify_pod, pod_phase, hp, Option.getD_some, Option.some_inj]
    split <;> simp_all

theorem podsLoop_cons_head (pod : Pod) (st : PodStatus) (rest : List Pod)
    (h : pod.status = some st) :
    (podsLoop (pod :: rest)).lines.head? = some (pod_line pod.name st) := by
  simp only [podsLoop, h]
  cases hr : podsLoop rest with
  | done lines hh uu =>
    cases hcl : classify_pod st <;> simp [LoopOut.lines]
  | panicked lines => simp [LoopOut.lines]

/-- C2: for every listed pod whose status block is present, the pod check
classifies it healthy exactly when its phase is "Running"; when the phase
field is absent it defaults to "Unknown", the pod is classified unhealthy
and printed with that phase, and the loop completes on it without
panicking. -/
theorem pod_classified_running_iff (pod : Pod) (st : PodStatus)
    (rest : List Pod) (h : pod.status = some st) :
    (podsLoop (pod :: rest)).lines.head? = some (pod_line pod.name st) ∧
    (classify_pod st = Health.healthy ↔ st.phase = some "Running") ∧
    (st.phase = none →
      classify_pod st = Health.unhealthy ∧
      podsLoop [pod] =
        LoopOut.done ["❌ Pod: " ++ pod.name ++ " (Status: Unknown)"] 0 1) := by
  refine ⟨podsLoop_cons_head pod st rest h, classify_pod_eq_healthy st, ?_⟩
  intro hp
  have hcl : classify_pod st = Health.unhealthy := by
    simp [classify_pod, pod_phase, hp]
  refine ⟨hcl, ?_⟩
  simp only [podsLoop, h, hcl, pod_line, pod_phase, hp, Option.getD_none]
  rw [String.append_assoc, String.append_assoc]
  rfl

theorem pod_classified_running_iff_witness :
    (⟨"p1", some ⟨none⟩⟩ : Pod).status = some ⟨none⟩ ∧
    podsLoop [⟨"p1", some ⟨none⟩⟩] =
      LoopOut.done ["❌ Pod: p1 (Status: Unknown)"] 0 1 :=
  ⟨rfl, ((pod_classified_running_iff ⟨"p1", some ⟨none⟩⟩ ⟨none⟩ [] rfl).2.2 rfl).2⟩

theorem nodesLoop_counts (items : List Node) (lines : List String) (h u : Nat)
    (hd : nodesLoop items = .done lines h u) : h + u = items.length := by
  induction items generalizing lines h u with
  | nil =>
    simp only [nodesLoop] at hd
    cases hd
    rfl
  | cons node rest ih =>
    simp only [nodesLoop] at hd
    cases hst : node.status with
    | none =>
      simp only [hst] at hd
      exact LoopOut.noConfusion hd
    | some st =>
      simp only [hst] at hd
      cases hr : nodesLoop rest with
      | done l2 h2 u2 =>
        simp only [hr] at hd
        cases hcl : classify_node st with
        | healthy =>
          simp only [hcl] at hd
          cases hd
          have := ih _ _ _ hr
          simp only [List.length_cons]
          omega
        | unhealthy =>
          simp only [hcl] at hd
          cases hd
          have := ih _ _ _ hr
          simp only [List.length_cons]
          omega
      | panicked l2 =>
        simp only [hr] at hd
        exact LoopOut.noConfusion hd

theorem podsLoop_counts (items : List Pod) (lines : List String) (h u : Nat)
    (hd : podsLoop items = .done lines h u) : h + u = items.length := by
  induction items generalizing lines h u with
  | nil =>
    simp only [podsLoop] at hd
    cases hd
    rfl
  | cons pod rest ih =>
    simp only [podsLoop] at hd
    cases hst : pod.status with
    | none =>
      simp only [hst] at hd
      exact LoopOut.noConfusion hd
    | some st =>
      simp only [hst] at hd
      cases hr : podsLoop rest with
      | done l2 h2 u2 =>
        simp only [hr] at hd
        cases hcl : classify_pod st with
        | healthy =>
          simp only [hcl] at hd
          cases hd
          have := ih _ _ _ hr
          simp only [List.length_cons]
          omega
        | unhealthy =>
          simp only [hcl] at hd
          cases hd
          have := ih _ _ _ hr
          simp only [List.length_cons]
          omega
      | panicked l2 =>
        simp only [hr] at hd
        exact LoopOut.noConfusion hd

/-- C3: whenever the node loop and the pod loop run to completion, the
healthy and unhealthy counters of the printed summary sum to the number of
items listed. -/
theorem summary_counts (nitems : List Node) (pitems : List Pod)
    (nlines plines : List String) (nh nu ph pu : Nat)
    (hn : nodesLoop nitems = .done nlines nh nu)
    (hp : podsLoop pitems = .done plines ph pu) :
    nh + nu = nitems.length ∧ ph + pu = pitems.length :=
  ⟨nodesLoop_counts nitems nlines nh nu hn, podsLoop_counts pitems plines ph pu hp⟩

theorem summary_counts_witness :
    nodesLoop [⟨"n1", some ⟨some [⟨"Ready", "True"⟩]⟩⟩, ⟨"n2", some ⟨none⟩⟩] =
      LoopOut.done ["✅ Node: n1", "❌ Node: n2 (NotReady)"] 1 1 ∧
    podsLoop [⟨"p1", some ⟨some "Running"⟩⟩] =
      LoopOut.done ["✅ Pod: p1"] 1 0 ∧
    (1 + 1 = 2 ∧ 1 + 0 = 1) :=
  have hn : nodesLoop [⟨"n1", some ⟨some [⟨"Ready", "True"⟩]⟩⟩, ⟨"n2", some ⟨none⟩⟩] =
      LoopOut.done ["✅ Node: n1", "❌ Node: n2 (NotReady)"] 1 1 := by decide
  have hp : podsLoop [⟨"p1", some ⟨some "Running"⟩⟩] =
      LoopOut.done ["✅ Pod: p1"] 1 0 := by decide
  ⟨hn, hp, summary_counts _ _ _ _ _ _ _ _ hn hp⟩

theorem nodesLoop_panics (items : List Node)
    (hn : ∃ n ∈ items, n.status = none) :
    (nodesLoop items).isPanic = true := by
  induction items with
  | nil => simp at hn
  | cons node rest ih =>
    rcases hn with ⟨m, hm, hnone⟩
    rcases List.mem_cons.mp hm with h1 | h2
    · subst h1
      simp [nodesLoop, hnone, LoopOut.isPanic]
    · have hp := ih ⟨m, h2, hnone⟩
      cases hst : node.status with
      | none => simp [nodesLoop, hst, LoopOut.isPanic]
      | some st =>
        cases hr : nodesLoop rest with
        | done l h u => rw [hr] at hp; simp [LoopOut.isPanic] at hp
        | panicked l => simp [nodesLoop, hst, hr, LoopOut.isPanic]

theorem podsLoop_panics (items : List Pod)
    (hp : ∃ p ∈ items, p.status = none) :
    (podsLoop items).isPanic = true := by
  induction items with
  | nil => simp at hp
  | cons pod rest ih =>
    rcases hp with ⟨m, hm, hnone⟩
    rcases List.mem_cons.mp hm with h1 | h2
    · subst h1
      simp [podsLoop, hnone, LoopOut.isPanic]
    · have hprev := ih ⟨m, h2, hnone⟩
      cases hst : pod.status with
      | none => simp [podsLoop, hst, LoopOut.isPanic]
      | some st =>
        cases hr : podsLoop rest with
        | done l h u => rw [hr] at hprev; simp [LoopOut.isPanic] at hprev
        | panicked l => simp [podsLoop, hst, hr, LoopOut.isPanic]

/-- C4: when a listed node or pod has no status block at all, the
corresponding loop panics (the unchecked `unwrap` is reached) and the
check routine ends in a panic instead of classifying the item unhealthy. -/
theorem missing_status_crashes (items : List Node) (pitems : List Pod)
    (hn : ∃ n ∈ items, n.status = none) (hp : ∃ p ∈ pitems, p.status = none) :
    (nodesLoop items).isPanic = true ∧ (podsLoop pitems).isPanic = true ∧
    (check_nodes (.ok ()) (fun _ => .ok items)).2 = RunStatus.panicked ∧
    (check_pods none (.ok ()) (fun _ => .ok pitems)).2 = RunStatus.panicked := by
  have h1 := nodesLoop_panics items hn
  have h2 := podsLoop_panics pitems hp
  refine ⟨h1, h2, ?_, ?_⟩
  · cases hr : nodesLoop items with
    | done l h u => rw [hr] at h1; simp [LoopOut.isPanic] at h1
    | panicked l => simp [check_nodes, hr]
  · cases hr : podsLoop pitems with
    | done l h u => rw [hr] at h2; simp [LoopOut.isPanic] at h2
    | panicked l => simp [check_pods, hr]

theorem missing_status_crashes_witness :
    (∃ n ∈ [(⟨"n1", none⟩ : Node)], n.status = none) ∧
    (∃ p ∈ [(⟨"p1", none⟩ : Pod)], p.status = none) ∧
    (check_nodes (.ok ()) (fun _ => .ok [⟨"n1", none⟩])).2 = RunStatus.panicked ∧
    (check_pods none (.ok ()) (fun _ => .ok [⟨"p1", none⟩])).2 = RunStatus.panicked :=
  have hn : ∃ n ∈ [(⟨"n1", none⟩ : Node)], n.status = none :=
    ⟨⟨"n1", none⟩, List.mem_singleton.mpr rfl, rfl⟩
  have hp : ∃ p ∈ [(⟨"p1", none⟩ : Pod)], p.status = none :=
    ⟨⟨"p1", none⟩, List.mem_singleton.mpr rfl, rfl⟩
  ⟨hn, hp, (missing_status_crashes _ _ hn hp).2.2.1,
    (missing_status_crashes _ _ hn hp).2.2.2⟩

theorem parse_resource_none (r : String) (h1 : r ≠ "nodes") (h2 : r ≠ "pods")
    (h3 : r ≠ "services") (h4 : r ≠ "events") : parse_resource r = none := by
  simp [parse_resource, h1, h2, h3, h4]

/-- C5: a resource-kind argument that is none of "nodes", "pods",
"services", "events" makes the program print the error line to the
diagnostic stream and exit with status 0. -/
theorem invalid_resource_exit_zero (r : String) (ns : Option String) (env : Env)
    (h : r ≠ "nodes" ∧ r ≠ "pods" ∧ r ≠ "services" ∧ r ≠ "events") :
    (main_run r ns env).stderr = [invalid_resource_msg] ∧
    (main_run r ns env).exit = 0 := by
  obtain ⟨h1, h2, h3, h4⟩ := h
  simp [main_run, parse_resource_none r h1 h2 h3 h4]

/-- A concrete cluster environment for witnesses: connecting succeeds and
every list call returns the empty collection. -/
def env0 : Env where
  conn := .ok ()
  listNodes := fun _ => .ok []
  listPods := fun _ => .ok []
  listServices := fun _ => .ok []
  listEvents := fun _ => .ok []

theorem invalid_resource_exit_zero_witness :
    ("deployments" ≠ "nodes" ∧ "deployments" ≠ "pods" ∧
      "deployments" ≠ "services" ∧ "deployments" ≠ "events") ∧
    (main_run "deployments" none env0).stderr = [invalid_resource_msg] ∧
    (main_run "deployments" none env0).exit = 0 :=
  ⟨by decide, invalid_resource_exit_zero "deployments" none env0 (by decide)⟩

/-- C6: an unrecognized resource-kind argument invokes no check routine and
issues no cluster connection or list request. -/
theorem invalid_resource_no_requests (r : String) (ns : Option String)
    (env : Env)
    (h : r ≠ "nodes" ∧ r ≠ "pods" ∧ r ≠ "services" ∧ r ≠ "events") :
    (main_run r ns env).invoked = none ∧ (main_run r ns env).requests = 0 := by
  obtain ⟨h1, h2, h3, h4⟩ := h
  simp [main_run, parse_resource_none r h1 h2 h3 h4]

theorem invalid_resource_no_requests_witness :
    ("Nodes" ≠ "nodes" ∧ "Nodes" ≠ "pods" ∧
      "Nodes" ≠ "services" ∧ "Nodes" ≠ "events") ∧
    (main_run "Nodes" none env0).invoked = none ∧
    (main_run "Nodes" none env0).requests = 0 :=
  ⟨by decide, invalid_resource_no_requests "Nodes" none env0 (by decide)⟩

/-- C7: for the pod, service and event checks, a supplied namespace
restricts the listing to exactly the stored items of that namespace, an
omitted namespace lists every stored item, and the node check issues its
list request at the all scope only, so its outcome never depends on any
namespace. -/
theorem namespace_scoping (ns : String)
    (podStore : List (String × Pod)) (svcStore : List (String × Service))
    (evtStore : List (String × Event)) :
    (∀ p, p ∈ list_in_scope podStore (scope_of (some ns)) ↔ (ns, p) ∈ podStore) ∧
    (∀ p, p ∈ list_in_scope podStore (scope_of none) ↔ ∃ m, (m, p) ∈ podStore) ∧
    (∀ s, s ∈ list_in_scope svcStore (scope_of (some ns)) ↔ (ns, s) ∈ svcStore) ∧
    (∀ s, s ∈ list_in_scope svcStore (scope_of none) ↔ ∃ m, (m, s) ∈ svcStore) ∧
    (∀ e, e ∈ list_in_scope evtStore (scope_of (some ns)) ↔ (ns, e) ∈ evtStore) ∧
    (∀ e, e ∈ list_in_scope evtStore (scope_of none) ↔ ∃ m, (m, e) ∈ evtStore) ∧
    (∀ conn f g, f Scope.all = g Scope.all →
      check_nodes conn f = check_nodes conn g) := by
  have hsome : ∀ (α : Type) (store : List (String × α)) (x : α),
      x ∈ list_in_scope store (scope_of (some ns)) ↔ (ns, x) ∈ store := by
    intro α store x
    simp only [list_in_scope, scope_of, List.mem_map, List.mem_filter,
      beq_iff_eq]
    constructor
    · rintro ⟨⟨a, q⟩, ⟨hmem, rfl⟩, rfl⟩
      exact hmem
    · intro hmem
      exact ⟨(ns, x), ⟨hmem, rfl⟩, rfl⟩
  have hall : ∀ (α : Type) (store : List (String × α)) (x : α),
      x ∈ list_in_scope store (scope_of none) ↔ ∃ m, (m, x) ∈ store := by
    intro α store x
    simp only [list_in_scope, scope_of, List.mem_map]
    constructor
    · rintro ⟨⟨a, q⟩, hmem, rfl⟩
      exact ⟨a, hmem⟩
    · rintro ⟨m, hmem⟩
      exact ⟨(m, x), hmem, rfl⟩
  refine ⟨hsome _ podStore, hall _ podStore, hsome _ svcStore, hall _ svcStore,
    hsome _ evtStore, hall _ evtStore, ?_⟩
  intro conn f g hfg
  cases conn with
  | error e => rfl
  | ok u => simp [check_nodes, hfg]

theorem namespace_scoping_witness :
    (⟨"p1", some ⟨some "Running"⟩⟩ : Pod) ∈
      list_in_scope
        [("default", (⟨"p1", some ⟨some "Running"⟩⟩ : Pod)),
         ("kube-system", ⟨"p2", none⟩)]
        (scope_of (some "default")) ∧
    check_nodes (.ok ()) (fun _ => .ok []) =
      check_nodes (.ok ()) (fun s => .ok (list_in_scope [] s)) :=
  have h := namespace_scoping "default"
    [("default", ⟨"p1", some ⟨some "Running"⟩⟩), ("kube-system", ⟨"p2", none⟩)]
    [] []
  ⟨(h.1 _).mpr (by simp), h.2.2.2.2.2.2 (.ok ()) _ _ rfl⟩

theorem eventsLoop_eq_map (items : List Event) :
    eventsLoop items = items.map event_line := by
  induction items with
  | nil => rfl
  | cons e rest ih => simp [eventsLoop, ih]

/-- C8: given a successful connection and list call, the event check
prints the info banner and then exactly one line per listed event, pairing
the event name with its message, where an absent message is replaced by
"No message"; the routine produces no classification and no summary line. -/
theorem event_check_output (ns : Option String) (items : List Event)
    (listFor : Scope → Except String (List Event))
    (h : listFor (scope_of ns) = .ok items) :
    check_events ns (.ok ()) listFor =
      (event_info :: items.map event_line, RunStatus.ok) ∧
    (items.map event_line).length = items.length ∧
    (∀ e ∈ items, e.message = none →
      event_line e = "📢 Event: " ++ e.name ++ " - No message") := by
  refine ⟨?_, by simp, ?_⟩
  · simp [check_events, h, eventsLoop_eq_map]
  · intro e _ hm
    rw [event_line, hm]
    show ("📢 Event: " ++ e.name ++ " - ") ++ "No message" =
      "📢 Event: " ++ e.name ++ " - No message"
    rw [String.append_assoc]
    rfl

theorem event_check_output_witness :
    ((fun (_ : Scope) => (Except.ok [(⟨"e1", none⟩ : Event)] :
        Except String (List Event))) (scope_of none) =
      Except.ok [(⟨"e1", none⟩ : Event)]) ∧
    check_events none (.ok ()) (fun _ => .ok [⟨"e1", none⟩]) =
      ([event_info, "📢 Event: e1 - No message"], RunStatus.ok) :=
  ⟨rfl, (event_check_output none [⟨"e1", none⟩] _ rfl).1⟩

/-- C10: an event whose message field is present but empty is printed with
the empty message, not with the "No message" placeholder. -/
theorem event_empty_message (e : Event) (h : e.message = some "") :
    event_line e = "📢 Event: " ++ e.name ++ " - " ∧
    event_line e ≠ "📢 Event: " ++ e.name ++ " - No message" := by
  have h1 : event_line e = "📢 Event: " ++ e.name ++ " - " := by
    rw [event_line, h]
    show ("📢 Event: " ++ e.name ++ " - ") ++ "" = "📢 Event: " ++ e.name ++ " - "
    rw [String.append_empty]
  refine ⟨h1, ?_⟩
  rw [h1]
  intro h2
  have hlen := congrArg String.length h2
  rw [String.length_append, String.length_append, String.length_append,
    String.length_append] at hlen
  have e3 : (" - " : String).length = 3 := rfl
  have e13 : (" - No message" : String).length = 13 := rfl
  rw [e3, e13] at hlen
  omega

theorem event_empty_message_witness :
    (⟨"e1", some ""⟩ : Event).message = some "" ∧
    event_line ⟨"e1", some ""⟩ = "📢 Event: e1 - " :=
  ⟨rfl, (event_empty_message ⟨"e1", some ""⟩ rfl).1⟩

theorem check_nodes_err_out (conn : Except String Unit)
    (listFor : Scope → Except String (List Node)) (e : String)
    (h : (check_nodes conn listFor).2 = RunStatus.err e) :
    (check_nodes conn listFor).1 = [node_info] := by
  cases conn with
  | error e2 => simp [check_nodes]
  | ok u =>
    cases hl : listFor Scope.all with
    | error e2 => simp [check_nodes, hl]
    | ok items =>
      cases hlp : nodesLoop items with
      | done l a b => simp [check_nodes, hl, hlp] at h
      | panicked l => simp [check_nodes, hl, hlp] at h

theorem check_pods_err_out (ns : Option String) (conn : Except String Unit)
    (listFor : Scope → Except String (List Pod)) (e : String)
    (h : (check_pods ns conn listFor).2 = RunStatus.err e) :
    (check_pods ns conn listFor).1 = [pod_info] := by
  cases conn with
  | error e2 => simp [check_pods]
  | ok u =>
    cases hl : listFor (scope_of ns) with
    | error e2 => simp [check_pods, hl]
    | ok items =>
      cases hlp : podsLoop items with
      | done l a b => simp [check_pods, hl, hlp] at h
      | panicked l => simp [check_pods, hl, hlp] at h

theorem check_services_err_out (ns : Option String) (conn : Except String Unit)
    (listFor : Scope → Except String (List Service)) (e : String)
    (h : (check_services ns conn listFor).2 = RunStatus.err e) :
    (check_services ns conn listFor).1 = [service_info] := by
  cases conn with
  | error e2 => simp [check_services]
  | ok u =>
    cases hl : listFor (scope_of ns) with
    | error e2 => simp [check_services, hl]
    | ok items => simp [check_services, hl] at h

theorem check_events_err_out (ns : Option String) (conn : Except String Unit)
    (listFor : Scope → Except String (List Event)) (e : String)
    (h : (check_events ns conn listFor).2 = RunStatus.err e) :
    (check_events ns conn listFor).1 = [event_info] := by
  cases conn with
  | error e2 => simp [check_events]
  | ok u =>
    cases hl : listFor (scope_of ns) with
    | error e2 => simp [check_events, hl]
    | ok items => simp [check_events, hl] at h

theorem dispatch_err_out (res : Resource) (ns : Option String) (env : Env)
    (e : String) (h : (dispatch_check res ns env).2 = RunStatus.err e) :
    (dispatch_check res ns env).1 = [info_line res] := by
  cases res with
  | nodes => exact check_nodes_err_out _ _ _ h
  | pods => exact check_pods_err_out _ _ _ _ h
  | services => exact check_services_err_out _ _ _ _ h
  | events => exact check_events_err_out _ _ _ _ h

theorem main_run_valid (r : String) (res : Resource) (ns : Option String)
    (env : Env) (hr : parse_resource r = some res) :
    main_run r ns env =
      { stdout := (dispatch_check res ns env).1
        stderr := stderr_of (dispatch_check res ns env).2
        status := (dispatch_check res ns env).2
        exit := exit_of (dispatch_check res ns env).2
        invoked := some res
        requests := check_requests env.conn } := by
  simp [main_run, hr]

/-- C9: when a valid check is dispatched, a connection failure or a list
failure makes the routine stop after its info banner (no item lines, no
summary), the error reaches the process boundary unmodified on the
diagnostic stream, and the exit status is nonzero; a run whose status is a
normal completion exits 0. -/
theorem error_propagation (r : String) (res : Resource) (ns : Option String)
    (env : Env) (hr : parse_resource r = some res) :
    (∀ e, env.conn = .error e →
      (main_run r ns env).status = RunStatus.err e) ∧
    (∀ e, env.conn = .ok () → listed env ns res = .error e →
      (main_run r ns env).status = RunStatus.err e) ∧
    (∀ e, (main_run r ns env).status = RunStatus.err e →
      (main_run r ns env).exit = 1 ∧
      (main_run r ns env).stderr = ["Error: " ++ e] ∧
      (main_run r ns env).stdout = [info_line res]) ∧
    ((main_run r ns env).status = RunStatus.ok → (main_run r ns env).exit = 0) := by
  refine ⟨?_, ?_, ?_, ?_⟩
  · intro e hc
    rw [main_run_valid r res ns env hr]
    dsimp only
    cases res <;>
      simp [dispatch_check, check_nodes, check_pods, check_services,
        check_events, hc]
  · intro e hc hl
    rw [main_run_valid r res ns env hr]
    dsimp only
    cases res with
    | nodes =>
      simp only [listed] at hl
      cases hlr : env.listNodes Scope.all with
      | error e2 =>
        simp only [hlr, Except.error.injEq] at hl
        subst hl
        simp [dispatch_check, check_nodes, hc, hlr]
      | ok items =>
        simp only [hlr] at hl
        exact Except.noConfusion hl
    | pods =>
      simp only [listed] at hl
      cases hlr : env.listPods (scope_of ns) with
      | error e2 =>
        simp only [hlr, Except.error.injEq] at hl
        subst hl
        simp [dispatch_check, check_pods, hc, hlr]
      | ok items =>
        simp only [hlr] at hl
        exact Except.noConfusion hl
    | services =>
      simp only [listed] at hl
      cases hlr : env.listServices (scope_of ns) with
      | error e2 =>
        simp only [hlr, Except.error.injEq] at hl
        subst hl
        simp [dispatch_check, check_services, hc, hlr]
      | ok items =>
        simp only [hlr] at hl
        exact Except.noConfusion hl
    | events =>
      simp only [listed] at hl
      cases hlr : env.listEvents (scope_of ns) with
      | error e2 =>
        simp only [hlr, Except.error.injEq] at hl
        subst hl
        simp [dispatch_check, check_events, hc, hlr]
      | ok items =>
        simp only [hlr] at hl
        exact Except.noConfusion hl
  · intro e hst
    rw [main_run_valid r res ns env hr] at hst
    dsimp only at hst
    rw [main_run_valid r res ns env hr]
    dsimp only
    rw [hst]
    exact ⟨rfl, rfl, dispatch_err_out res ns env e hst⟩
  · intro hst
    rw [main_run_valid r res ns env hr] at hst
    dsimp only at hst
    rw [main_run_valid r res ns env hr]
    dsimp only
    rw [hst]
    rfl

/-- A concrete cluster environment whose connection attempt fails. -/
def env_err : Env where
  conn := .error "connection refused"
  listNodes := fun _ => .ok []
  listPods := fun _ => .ok []
  listServices := fun _ => .ok []
  listEvents := fun _ => .ok []

theorem error_propagation_witness :
    parse_resource "nodes" = some Resource.nodes ∧
    (main_run "nodes" none env_err).status = RunStatus.err "connection refused" ∧
    (main_run "nodes" none env_err).exit = 1 ∧
    (main_run "nodes" none env_err).stdout = [info_line Resource.nodes] :=
  have h := error_propagation "nodes" Resource.nodes none env_err (by decide)
  have hst := h.1 "connection refused" rfl
  have hout := h.2.2.1 "connection refused" hst
  ⟨by decide, hst, hout.1, hout.2.2⟩

end KubeDoctor
